import Mathlib

/-! Formal model of the Car_Rental repository: the persistence layer
(src/db.py), the booking-wizard terminal handlers
(src/handlers/customer.py, src/handlers/dealer.py), the retry decorator
(src/db.py, retry_on_db_error), and the time-slot keyboard generator
(src/utils/keyboards.py, generate_time_keyboard).

Relational rows become Lean structures, tables become lists of rows, and
each SQL statement of a db.py function becomes the corresponding list
operation (SELECT ... fetchone = List.find?, UPDATE = List.map on the
matching rows, DELETE = List.filter, INSERT = append).  NOW() is an
abstract Nat clock carried in the state.  SERIAL primary keys are
modelled by nextXId counters carried in the state. -/

namespace CarRental

/-- A row of the cars table: {id, dealer_id, make, model, year, available}. -/
structure Car where
  id : Nat
  dealer_id : Nat
  make : String
  model : String
  year : Nat
  available : Bool
deriving Repr, DecidableEq

/-- A row of the bookings table: {id, customer_id, car_id, start_date,
end_date (nullable), active, pending}.  The table schema itself is not in
src/; book_car's INSERT names no pending value, so the inserted row
carries the schema default, modelled here as false (the spec reads
active=true with pending=false as a booking currently in effect, and the
direct-booking path flips availability immediately); no claim below
depends on that default. -/
structure Booking where
  id : Nat
  customer_id : Nat
  car_id : Nat
  start_date : Nat
  end_date : Option Nat
  active : Bool
  pending : Bool
deriving Repr, DecidableEq

/-- A row of the customers table: {id, telegram_id, name, registration_date}. -/
structure Customer where
  id : Nat
  telegram_id : Nat
  name : String
  registration_date : Nat
deriving Repr, DecidableEq

/-- A row of the dealers table: {id, telegram_id, name}. -/
structure Dealer where
  id : Nat
  telegram_id : Nat
  name : String
deriving Repr, DecidableEq

/-- A row of the car_images table: {id, car_id, image_url, is_primary}. -/
structure CarImage where
  id : Nat
  car_id : Nat
  image_url : String
  is_primary : Bool
deriving Repr, DecidableEq

/-- The database state: the five tables, the SERIAL counters, and the
abstract NOW() clock. -/
structure DB where
  customers : List Customer
  dealers : List Dealer
  cars : List Car
  car_images : List CarImage
  bookings : List Booking
  nextCustomerId : Nat
  nextDealerId : Nat
  nextCarId : Nat
  nextImageId : Nat
  nextBookingId : Nat
  now : Nat
deriving Repr, DecidableEq

/-- Result of book_car (src/db.py:190-229): one constructor per return
statement of the function body. -/
inductive BookResult where
  | alreadyBooked
  | carNotFound
  | carUnavailable
  | success (bookingId : Nat)
deriving Repr, DecidableEq

/-- book_car(customer_id, car_id) from src/db.py:190-229, one transaction:
SELECT id FROM bookings WHERE customer_id = s AND active = true (fail
AlreadyBooked on a row); SELECT available FROM cars WHERE id = s (fail
CarNotFound on no row, CarUnavailable on available=false); INSERT INTO
bookings (customer_id, car_id, start_date, active) VALUES (s, s, NOW(),
true) RETURNING id; UPDATE cars SET available = false WHERE id = s;
COMMIT. -/
def book_car (db : DB) (customer_id car_id : Nat) : BookResult × DB :=
  if (db.bookings.find? fun b => b.customer_id == customer_id && b.active).isSome then
    (.alreadyBooked, db)
  else
    match db.cars.find? fun c => c.id == car_id with
    | none => (.carNotFound, db)
    | some car =>
      if !car.available then
        (.carUnavailable, db)
      else
        let newBooking : Booking :=
          { id := db.nextBookingId, customer_id := customer_id, car_id := car_id,
            start_date := db.now, end_date := none, active := true, pending := false }
        (.success db.nextBookingId,
          { db with
            bookings := db.bookings ++ [newBooking],
            cars := db.cars.map fun c =>
              if c.id == car_id then { c with available := false } else c,
            nextBookingId := db.nextBookingId + 1 })

/-- Result of return_car (src/db.py:231-261). -/
inductive ReturnResult where
  | bookingNotFound
  | success
deriving Repr, DecidableEq

/-- return_car(booking_id) from src/db.py:231-261: SELECT car_id FROM
bookings WHERE id = s AND active = true (fail on no row); UPDATE bookings
SET active = false, end_date = NOW() WHERE id = s; UPDATE cars SET
available = true WHERE id = car_id; COMMIT. -/
def return_car (db : DB) (booking_id : Nat) : ReturnResult × DB :=
  match db.bookings.find? fun b => b.id == booking_id && b.active with
  | none => (.bookingNotFound, db)
  | some b =>
    (.success,
      { db with
        bookings := db.bookings.map fun bb =>
          if bb.id == booking_id then { bb with active := false, end_date := some db.now } else bb,
        cars := db.cars.map fun c =>
          if c.id == b.car_id then { c with available := true } else c })

/-- Result of approve_booking / reject_booking (src/db.py:433-478). -/
inductive AdminBookingResult where
  | notFoundOrProcessed
  | success
deriving Repr, DecidableEq

/-- approve_booking(booking_id) from src/db.py:433-459: SELECT id, car_id
FROM bookings WHERE id = s AND pending = true (fail on no row); UPDATE
bookings SET pending = false WHERE id = s; UPDATE cars SET available =
false WHERE id = car_id; COMMIT. -/
def approve_booking (db : DB) (booking_id : Nat) : AdminBookingResult × DB :=
  match db.bookings.find? fun b => b.id == booking_id && b.pending with
  | none => (.notFoundOrProcessed, db)
  | some b =>
    (.success,
      { db with
        bookings := db.bookings.map fun bb =>
          if bb.id == booking_id then { bb with pending := false } else bb,
        cars := db.cars.map fun c =>
          if c.id == b.car_id then { c with available := false } else c })

/-- reject_booking(booking_id) from src/db.py:461-478: SELECT id FROM
bookings WHERE id = s AND pending = true (fail on no row); DELETE FROM
bookings WHERE id = s; COMMIT. -/
def reject_booking (db : DB) (booking_id : Nat) : AdminBookingResult × DB :=
  if (db.bookings.find? fun b => b.id == booking_id && b.pending).isSome then
    (.success, { db with bookings := db.bookings.filter fun b => !(b.id == booking_id) })
  else
    (.notFoundOrProcessed, db)

/-- Result of admin_delete_booking (src/db.py:306-341). -/
inductive DeleteResult where
  | notFound
  | success
deriving Repr, DecidableEq

/-- admin_delete_booking(booking_id) from src/db.py:306-341: SELECT
car_id, active FROM bookings WHERE id = s (fail on no row); if active,
UPDATE cars SET available = true WHERE id = car_id; DELETE FROM bookings
WHERE id = s; COMMIT. -/
def admin_delete_booking (db : DB) (booking_id : Nat) : DeleteResult × DB :=
  match db.bookings.find? fun b => b.id == booking_id with
  | none => (.notFound, db)
  | some b =>
    (.success,
      { db with
        cars := if b.active then
            db.cars.map fun c => if c.id == b.car_id then { c with available := true } else c
          else db.cars,
        bookings := db.bookings.filter fun bb => !(bb.id == booking_id) })

/-- Result of the body of register_customer (src/db.py:343-375): True =
newly registered, False = already exists. -/
inductive RegisterResult where
  | newlyRegistered
  | alreadyExists
deriving Repr, DecidableEq

/-- register_customer(telegram_id, name) body from src/db.py:343-375
(exception-free path): SELECT id FROM customers WHERE telegram_id = s
(return False on a row); INSERT INTO customers (telegram_id, name,
registration_date) VALUES (s, s, NOW()); COMMIT; return True. -/
def register_customer (db : DB) (telegram_id : Nat) (name : String) : RegisterResult × DB :=
  if (db.customers.find? fun c => c.telegram_id == telegram_id).isSome then
    (.alreadyExists, db)
  else
    (.newlyRegistered,
      { db with
        customers := db.customers ++
          [{ id := db.nextCustomerId, telegram_id := telegram_id, name := name,
             registration_date := db.now }],
        nextCustomerId := db.nextCustomerId + 1 })

/-- add_dealer(telegram_id, name) from src/db.py:480-503: SELECT id FROM
dealers WHERE telegram_id = s (fail on a row); INSERT INTO dealers
(telegram_id, name) VALUES (s, s) RETURNING id; COMMIT. -/
def add_dealer (db : DB) (telegram_id : Nat) (name : String) : Option Nat × DB :=
  if (db.dealers.find? fun d => d.telegram_id == telegram_id).isSome then
    (none, db)
  else
    (some db.nextDealerId,
      { db with
        dealers := db.dealers ++ [{ id := db.nextDealerId, telegram_id := telegram_id, name := name }],
        nextDealerId := db.nextDealerId + 1 })

/-- delete_dealer(dealer_id) from src/db.py:505-533: SELECT id FROM
dealers WHERE id = s (fail on no row); SELECT id FROM cars WHERE
dealer_id = s; DELETE FROM car_images WHERE car_id = ANY(car_ids);
DELETE FROM cars WHERE dealer_id = s; DELETE FROM dealers WHERE id = s;
COMMIT.  Note: bookings are not touched. -/
def delete_dealer (db : DB) (dealer_id : Nat) : Bool × DB :=
  if (db.dealers.find? fun d => d.id == dealer_id).isSome then
    let car_ids := (db.cars.filter fun c => c.dealer_id == dealer_id).map Car.id
    (true,
      { db with
        car_images := db.car_images.filter fun img => !(car_ids.contains img.car_id),
        cars := db.cars.filter fun c => !(c.dealer_id == dealer_id),
        dealers := db.dealers.filter fun d => !(d.id == dealer_id) })
  else
    (false, db)

/-- add_dealer_car(dealer_id, make, model, year, photo_id) from
src/db.py:651-675: INSERT INTO cars (dealer_id, make, model, year,
available) VALUES (s, s, s, s, true) RETURNING id; INSERT INTO
car_images (car_id, image_url, is_primary) VALUES (s, s, true);
COMMIT. -/
def add_dealer_car (db : DB) (dealer_id : Nat) (make model : String) (year : Nat)
    (photo_id : String) : Nat × DB :=
  (db.nextCarId,
    { db with
      cars := db.cars ++
        [{ id := db.nextCarId, dealer_id := dealer_id, make := make, model := model,
           year := year, available := true }],
      car_images := db.car_images ++
        [{ id := db.nextImageId, car_id := db.nextCarId, image_url := photo_id,
           is_primary := true }],
      nextCarId := db.nextCarId + 1,
      nextImageId := db.nextImageId + 1 })

/-- delete_dealer_car(dealer_id, car_id) from src/db.py:677-707: SELECT
id FROM cars WHERE id = s AND dealer_id = s (fail on no row); SELECT id
FROM bookings WHERE car_id = s AND active = true (fail on a row); DELETE
FROM car_images WHERE car_id = s; DELETE FROM cars WHERE id = s;
COMMIT. -/
def delete_dealer_car (db : DB) (dealer_id car_id : Nat) : Bool × DB :=
  if (db.cars.find? fun c => c.id == car_id && c.dealer_id == dealer_id).isSome then
    if (db.bookings.find? fun b => b.car_id == car_id && b.active).isSome then
      (false, db)
    else
      (true,
        { db with
          car_images := db.car_images.filter fun img => !(img.car_id == car_id),
          cars := db.cars.filter fun c => !(c.id == car_id) })
  else
    (false, db)

/-- update_car_image(car_id, image_url, is_primary) from
src/db.py:709-759: SELECT id FROM cars WHERE id = s (fail on no row); if
is_primary, UPDATE car_images SET is_primary = FALSE WHERE car_id = s;
SELECT id FROM car_images WHERE car_id = s AND is_primary = s; UPDATE
that row or INSERT a new one; COMMIT. -/
def update_car_image (db : DB) (car_id : Nat) (image_url : String)
    (is_primary : Bool) : Bool × DB :=
  if (db.cars.find? fun c => c.id == car_id).isNone then
    (false, db)
  else
    let images1 := if is_primary then
        db.car_images.map fun img =>
          if img.car_id == car_id then { img with is_primary := false } else img
      else db.car_images
    match images1.find? fun img => img.car_id == car_id && img.is_primary == is_primary with
    | some existing =>
      (true,
        { db with
          car_images := images1.map fun img =>
            if img.id == existing.id then
              { img with image_url := image_url, is_primary := is_primary }
            else img })
    | none =>
      (true,
        { db with
          car_images := images1 ++
            [{ id := db.nextImageId, car_id := car_id, image_url := image_url,
               is_primary := is_primary }],
          nextImageId := db.nextImageId + 1 })

/-- refresh_car_image(car_id, new_file_id) from src/db.py:761-803: SELECT
id FROM cars WHERE id = s (fail on no row); SELECT id FROM car_images
WHERE car_id = s AND is_primary = TRUE; UPDATE that row's image_url or
INSERT a new primary image; COMMIT. -/
def refresh_car_image (db : DB) (car_id : Nat) (new_file_id : String) : Bool × DB :=
  if (db.cars.find? fun c => c.id == car_id).isNone then
    (false, db)
  else
    match db.car_images.find? fun img => img.car_id == car_id && img.is_primary with
    | some image =>
      (true,
        { db with
          car_images := db.car_images.map fun img =>
            if img.id == image.id then { img with image_url := new_file_id } else img })
    | none =>
      (true,
        { db with
          car_images := db.car_images ++
            [{ id := db.nextImageId, car_id := car_id, image_url := new_file_id,
               is_primary := true }],
          nextImageId := db.nextImageId + 1 })

/-- get_customer_id(telegram_id) from src/db.py:162-172: SELECT id FROM
customers WHERE telegram_id = s, returning the id or None. -/
def get_customer_id (db : DB) (telegram_id : Nat) : Option Nat :=
  (db.customers.find? fun c => c.telegram_id == telegram_id).map Customer.id

/-- get_dealer_id(user_id) from src/db.py:546-556: SELECT id FROM dealers
WHERE telegram_id = s, returning the id or None. -/
def get_dealer_id (db : DB) (user_id : Nat) : Option Nat :=
  (db.dealers.find? fun d => d.telegram_id == user_id).map Dealer.id

/-- One engine operation, for stating invariants preserved by any
sequence of the persistence-layer entry points. -/
inductive Op where
  | registerCustomer (telegram_id : Nat) (name : String)
  | bookCar (customer_id car_id : Nat)
  | returnCar (booking_id : Nat)
  | approveBooking (booking_id : Nat)
  | rejectBooking (booking_id : Nat)
  | adminDeleteBooking (booking_id : Nat)
  | addDealer (telegram_id : Nat) (name : String)
  | deleteDealer (dealer_id : Nat)
  | addDealerCar (dealer_id : Nat) (make model : String) (year : Nat) (photo : String)
  | deleteDealerCar (dealer_id car_id : Nat)
  | updateCarImage (car_id : Nat) (url : String) (is_primary : Bool)
  | refreshCarImage (car_id : Nat) (file_id : String)
deriving Repr, DecidableEq

/-- The state transition of one engine operation (result discarded). -/
def applyOp (db : DB) : Op → DB
  | .registerCustomer tid name => (register_customer db tid name).2
  | .bookCar cid carId => (book_car db cid carId).2
  | .returnCar bid => (return_car db bid).2
  | .approveBooking bid => (approve_booking db bid).2
  | .rejectBooking bid => (reject_booking db bid).2
  | .adminDeleteBooking bid => (admin_delete_booking db bid).2
  | .addDealer tid name => (add_dealer db tid name).2
  | .deleteDealer did => (delete_dealer db did).2
  | .addDealerCar did make model year photo => (add_dealer_car db did make model year photo).2
  | .deleteDealerCar did carId => (delete_dealer_car db did carId).2
  | .updateCarImage carId url p => (update_car_image db carId url p).2
  | .refreshCarImage carId fid => (refresh_car_image db carId fid).2

/-- Number of rows of the bookings table with this customer_id and
active=true. -/
def activeBookingCount (db : DB) (cust : Nat) : Nat :=
  db.bookings.countP fun b => b.customer_id == cust && b.active

/-- The one-active-booking invariant: every customer has at most one
booking row with active=true. -/
def AtMostOneActive (db : DB) : Prop :=
  ∀ cust, activeBookingCount db cust ≤ 1

/-! Concurrency model for book_car.  Each statement of the function body
that talks to the backend is a suspension point; a transaction's SELECTs
read the committed global state (psycopg2 default READ COMMITTED), its
INSERT and UPDATE stay private to the transaction until COMMIT publishes
them, and the SERIAL booking-id sequence is shared and non-transactional
(the id is drawn at INSERT time).  A thread is book_car's body cut at
those points; a schedule interleaves two threads. -/

/-- One in-flight book_car call.  pc: 0 = before the active-booking
SELECT, 1 = before the availability SELECT, 2 = before the INSERT,
3 = before the UPDATE cars, 4 = before COMMIT, 5 = finished. -/
structure TxThread where
  customer_id : Nat
  car_id : Nat
  pc : Nat
  result : Option BookResult
  pendingBooking : Option Booking
deriving Repr, DecidableEq

/-- A fresh book_car transaction for the given customer and car. -/
def mkThread (cid carId : Nat) : TxThread :=
  { customer_id := cid, car_id := carId, pc := 0, result := none, pendingBooking := none }

/-- Execute the next statement of one in-flight book_car call against the
committed database state. -/
def stepThread (db : DB) (t : TxThread) : DB × TxThread :=
  match t.pc with
  | 0 =>
    if (db.bookings.find? fun b => b.customer_id == t.customer_id && b.active).isSome then
      (db, { t with result := some .alreadyBooked, pc := 5 })
    else (db, { t with pc := 1 })
  | 1 =>
    match db.cars.find? fun c => c.id == t.car_id with
    | none => (db, { t with result := some .carNotFound, pc := 5 })
    | some car =>
      if !car.available then (db, { t with result := some .carUnavailable, pc := 5 })
      else (db, { t with pc := 2 })
  | 2 =>
    ({ db with nextBookingId := db.nextBookingId + 1 },
     { t with
       pc := 3,
       pendingBooking := some
         { id := db.nextBookingId, customer_id := t.customer_id, car_id := t.car_id,
           start_date := db.now, end_date := none, active := true, pending := false } })
  | 3 => (db, { t with pc := 4 })
  | 4 =>
    match t.pendingBooking with
    | some nb =>
      ({ db with
         bookings := db.bookings ++ [nb],
         cars := db.cars.map fun c =>
           if c.id == t.car_id then { c with available := false } else c },
       { t with pc := 5, result := some (.success nb.id) })
    | none => (db, { t with pc := 5 })
  | _ => (db, t)

/-- Run a schedule over two in-flight book_car calls: true steps the
first thread, false the second. -/
def runSched (db : DB) (t1 t2 : TxThread) : List Bool → DB × TxThread × TxThread
  | [] => (db, t1, t2)
  | first :: rest =>
    if first then
      let s := stepThread db t1
      runSched s.1 s.2 t2 rest
    else
      let s := stepThread db t2
      runSched s.1 t1 s.2 rest

/-! Retry model for the retry_on_db_error decorator (src/db.py:32-56).
An attempt's interaction with the backend either returns a value, raises
a connection error (OperationalError / InterfaceError) or raises some
other exception. -/

/-- Outcome of one execution of the wrapped function's body. -/
inductive BodyOutcome (α : Type) where
  | ret (v : α)
  | raiseConn
  | raiseOther
deriving Repr, DecidableEq

/-- Outcome of the decorated call as the caller sees it. -/
inductive RetryOutcome (α : Type) where
  | returned (v : α)
  | raisedConn
  | raisedOther
deriving Repr, DecidableEq

/-- MAX_RETRIES from src/db.py:29. -/
def MAX_RETRIES : Nat := 3

/-- The while-loop of retry_on_db_error: remaining = MAX_RETRIES -
retries; body is indexed by the attempt number; a connection error
increments retries and sleeps(RETRY_DELAY) when retries < MAX_RETRIES
still holds; any other exception re-raises; when the loop exhausts, the
last connection error is re-raised.  Returns (attempts made, sleeps
performed, outcome). -/
def retryLoop {α : Type} (body : Nat → BodyOutcome α) :
    Nat → Nat → Nat → Nat × Nat × RetryOutcome α
  | 0, attempts, sleeps => (attempts, sleeps, .raisedConn)
  | n + 1, attempts, sleeps =>
    match body attempts with
    | .ret v => (attempts + 1, sleeps, .returned v)
    | .raiseOther => (attempts + 1, sleeps, .raisedOther)
    | .raiseConn =>
      if n = 0 then retryLoop body n (attempts + 1) sleeps
      else retryLoop body n (attempts + 1) (sleeps + 1)

/-- The retry_on_db_error decorator applied to a body. -/
def retry_on_db_error {α : Type} (body : Nat → BodyOutcome α) :
    Nat × Nat × RetryOutcome α :=
  retryLoop body MAX_RETRIES 0 0

/-- register_customer's body as the decorator sees it (src/db.py:343-375):
the entire body sits inside try/except Exception -> return None, so a
connection error raised by get_connection or a cursor is swallowed inside
the body, which then RETURNS None instead of letting the error reach the
decorator.  dbAttempt is what the backend does on the n-th attempt. -/
def register_customer_body {α : Type} (dbAttempt : Nat → BodyOutcome α) (n : Nat) :
    BodyOutcome (Option α) :=
  match dbAttempt n with
  | .ret v => .ret (some v)
  | .raiseConn => .ret none
  | .raiseOther => .ret none

/-! Session model for the conversation handlers.  An aiogram FSMContext
maps the conversation to a dictionary of transient wizard fields;
state.clear() empties it. -/

/-- The booking-wizard fields stored by the customer handlers
(src/handlers/customer.py): car_id, start/end dates and times. -/
structure Session where
  car_id : Option Nat
  start_date : Option String
  start_time : Option String
  start_datetime : Option String
  end_date : Option String
  end_time : Option String
  end_datetime : Option String
deriving Repr, DecidableEq

/-- The cleared session (state.clear()). -/
def Session.empty : Session :=
  { car_id := none, start_date := none, start_time := none, start_datetime := none,
    end_date := none, end_time := none, end_datetime := none }

/-- The add-car wizard fields stored by the dealer handlers
(src/handlers/dealer.py): car_make, car_model, car_year. -/
structure DealerSession where
  car_make : Option String
  car_model : Option String
  car_year : Option Nat
deriving Repr, DecidableEq

/-- The cleared dealer session (state.clear()). -/
def DealerSession.empty : DealerSession :=
  { car_make := none, car_model := none, car_year := none }

/-- confirm_booking_handler (src/handlers/customer.py:743-801).  crash
models an unhandled exception inside the try block (before the final
state.clear()): the except branch logs, shows the main menu and returns
WITHOUT clearing the state.  Otherwise: get_customer_id; on None an early
return (main menu, no clear); else book_car(customer_id, car_id) with
car_id taken from the callback payload, a success or failure screen, and
state.clear() in both cases.  The wizard's stored dates are read into
local variables but never passed to the database. -/
def confirm_booking_handler (db : DB) (sess : Session) (telegram_id cbCarId : Nat)
    (crash : Bool) : DB × Session :=
  if crash then (db, sess)
  else
    match get_customer_id db telegram_id with
    | none => (db, sess)
    | some customer_id => ((book_car db customer_id cbCarId).2, Session.empty)

/-- dealer_add_car_photo_handler (src/handlers/dealer.py:308-371).  crash
models an unhandled exception inside the try block: the except branch
shows the dealer menu and returns WITHOUT clearing.  Otherwise:
get_dealer_id; on None answer and state.clear(); else add_dealer_car with
the wizard fields and the photo id; on success show the menu and
state.clear(); on failure (dbFail, the except path inside add_dealer_car)
show the failure message and return WITHOUT clearing. -/
def dealer_add_car_photo_handler (db : DB) (sess : DealerSession) (user_id : Nat)
    (photo_id : String) (crash dbFail : Bool) : DB × DealerSession :=
  if crash then (db, sess)
  else
    match get_dealer_id db user_id with
    | none => (db, DealerSession.empty)
    | some dealer_id =>
      if dbFail then (db, sess)
      else
        ((add_dealer_car db dealer_id (sess.car_make.getD "") (sess.car_model.getD "")
            (sess.car_year.getD 0) photo_id).2, DealerSession.empty)

/-- The time slots offered by generate_time_keyboard
(src/utils/keyboards.py:168-193) as (hour, minute) pairs, in order:
start_hour = now.hour if for_start and now.hour >= 8 else 8; for hour in
range(start_hour, 21): for minute in [0, 30]: skip when for_start and
hour == now.hour and minute <= now.minute. -/
def generate_time_slots (for_start : Bool) (nowHour nowMinute : Nat) : List (Nat × Nat) :=
  let start_hour := if for_start && decide (8 ≤ nowHour) then nowHour else 8
  (List.range' start_hour (21 - start_hour)).flatMap fun hour =>
    [0, 30].filterMap fun minute =>
      if for_start && hour == nowHour && decide (minute ≤ nowMinute) then none
      else some (hour, minute)

/-! Concrete states used by the witnesses and counterexamples. -/

/-- A small database: one customer (telegram 10), one dealer (telegram
99), one available car (id 1) owned by the dealer, no bookings. -/
def db0 : DB :=
  { customers := [{ id := 1, telegram_id := 10, name := "A", registration_date := 0 }],
    dealers := [{ id := 1, telegram_id := 99, name := "D" }],
    cars := [{ id := 1, dealer_id := 1, make := "T", model := "C", year := 2020,
               available := true }],
    car_images := [],
    bookings := [],
    nextCustomerId := 2, nextDealerId := 2, nextCarId := 2, nextImageId := 1,
    nextBookingId := 1, now := 5 }

/-- db0 plus a completed (inactive) booking of car 1 by customer 1. -/
def dbC6 : DB :=
  { db0 with
    car_images := [{ id := 1, car_id := 1, image_url := "img", is_primary := true }],
    bookings := [{ id := 1, customer_id := 1, car_id := 1, start_date := 0,
                   end_date := some 1, active := false, pending := false }],
    nextImageId := 2, nextBookingId := 2 }

/-- dbC6 with its booking of car 1 still active. -/
def dbC6a : DB :=
  { db0 with
    car_images := [{ id := 1, car_id := 1, image_url := "img", is_primary := true }],
    bookings := [{ id := 1, customer_id := 1, car_id := 1, start_date := 0,
                   end_date := none, active := true, pending := false }],
    nextImageId := 2, nextBookingId := 2 }

/-- db0 with a second customer (telegram 11), for the booking race. -/
def dbRace : DB :=
  { db0 with
    customers := [{ id := 1, telegram_id := 10, name := "A", registration_date := 0 },
                  { id := 2, telegram_id := 11, name := "B", registration_date := 0 }],
    nextCustomerId := 3 }

/-- Run one in-flight book_car call alone for n steps. -/
def runThread (db : DB) (t : TxThread) : Nat → DB × TxThread
  | 0 => (db, t)
  | n + 1 =>
    let s := stepThread db t
    runThread s.1 s.2 n

/-- db0 plus one pending booking (id 1, awaiting approval) of car 1. -/
def db0pending : DB :=
  { db0 with
    bookings := [{ id := 1, customer_id := 1, car_id := 1, start_date := 0,
                   end_date := none, active := true, pending := true }],
    nextBookingId := 2 }

/-- A session mid-wizard, with every transient field populated. -/
def sessC8 : Session :=
  { car_id := some 5, start_date := some "2025-05-01", start_time := some "09:00",
    start_datetime := some "2025-05-01 09:00", end_date := some "2025-05-02",
    end_time := some "10:00", end_datetime := some "2025-05-02 10:00" }

/-- A dealer session mid add-car wizard, with every field populated. -/
def dsessC8 : DealerSession :=
  { car_make := some "Toyota", car_model := some "Corolla", car_year := some 2022 }

/-! Helper lemmas about find? over a table whose key column is unique. -/

theorem find?_key_and_eq_some {α : Type} (key : α → Nat) (q : α → Bool) (k : Nat)
    (l : List α) (hnd : (l.map key).Nodup) (x : α) (hx : x ∈ l) (hk : key x = k)
    (hq : q x = true) : l.find? (fun y => key y == k && q y) = some x := by
  induction l with
  | nil => simp at hx
  | cons a l ih =>
    simp only [List.map_cons, List.nodup_cons] at hnd
    rcases List.mem_cons.mp hx with rfl | hxl
    · exact List.find?_cons_of_pos _ (by simp [hk, hq])
    · have hka : key a ≠ k := by
        intro h
        have : key a ∈ l.map key := by
          rw [h, ← hk]
          exact List.mem_map_of_mem key hxl
        exact hnd.1 this
      rw [List.find?_cons_of_neg _ (by simp [hka])]
      exact ih hnd.2 hxl

theorem find?_key_eq_some {α : Type} (key : α → Nat) (k : Nat)
    (l : List α) (hnd : (l.map key).Nodup) (x : α) (hx : x ∈ l) (hk : key x = k) :
    l.find? (fun y => key y == k) = some x := by
  have h := find?_key_and_eq_some key (fun _ => true) k l hnd x hx hk rfl
  simpa using h

theorem mem_key_inj {α : Type} (key : α → Nat) (l : List α) (hnd : (l.map key).Nodup)
    (x : α) (hx : x ∈ l) (y : α) (hy : y ∈ l) (hk : key x = key y) : x = y := by
  induction l with
  | nil => simp at hx
  | cons a l ih =>
    simp only [List.map_cons, List.nodup_cons] at hnd
    rcases List.mem_cons.mp hx with rfl | hxl
    · rcases List.mem_cons.mp hy with rfl | hyl
      · rfl
      · have : key x ∈ l.map key := by
          rw [hk]
          exact List.mem_map_of_mem key hyl
        exact absurd this hnd.1
    · rcases List.mem_cons.mp hy with rfl | hyl
      · have : key y ∈ l.map key := by
          rw [← hk]
          exact List.mem_map_of_mem key hxl
        exact absurd this hnd.1
      · exact ih hnd.2 hxl hyl

/-- Claim C1: for every customer id and car id, book_car performs, within
one transaction, exactly this sequence: (1) it fails with AlreadyBooked
if the customer has a booking with active=true; (2) otherwise it fails
with CarNotFound if no car row has that id; (3) otherwise it fails with
CarUnavailable if the car's available flag is false; (4) otherwise it
inserts a new booking row with active=true and start_date=now, sets the
car's available flag to false, and returns the new booking id.  The car
id column is a primary key, so car ids are assumed distinct. -/
theorem c1_book_car_contract (db : DB) (cid carId : Nat)
    (hnd : (db.cars.map Car.id).Nodup) :
    ((∃ b ∈ db.bookings, b.customer_id = cid ∧ b.active = true) →
      book_car db cid carId = (.alreadyBooked, db)) ∧
    ((∀ b ∈ db.bookings, ¬(b.customer_id = cid ∧ b.active = true)) →
      ((∀ c ∈ db.cars, c.id ≠ carId) → book_car db cid carId = (.carNotFound, db)) ∧
      (∀ c ∈ db.cars, c.id = carId →
        (c.available = false → book_car db cid carId = (.carUnavailable, db)) ∧
        (c.available = true →
          book_car db cid carId = (.success db.nextBookingId,
            { db with
              bookings := db.bookings ++
                [{ id := db.nextBookingId, customer_id := cid, car_id := carId,
                   start_date := db.now, end_date := none, active := true,
                   pending := false }],
              cars := db.cars.map fun c =>
                if c.id == carId then { c with available := false } else c,
              nextBookingId := db.nextBookingId + 1 })))) := by
  constructor
  · rintro ⟨b, hb, hcid, hact⟩
    have hfind : (db.bookings.find? fun b => b.customer_id == cid && b.active).isSome := by
      rw [List.find?_isSome]
      exact ⟨b, hb, by simp [hcid, hact]⟩
    simp [book_car, hfind]
  · intro hno
    have hfind : (db.bookings.find? fun b => b.customer_id == cid && b.active) = none := by
      rw [List.find?_eq_none]
      intro b hb
      simp only [Bool.and_eq_true, beq_iff_eq]
      intro hcontra
      exact hno b hb ⟨hcontra.1, hcontra.2⟩
    constructor
    · intro hnone
      have hcar : (db.cars.find? fun c => c.id == carId) = none := by
        rw [List.find?_eq_none]
        intro c hc
        simp only [beq_iff_eq]
        exact hnone c hc
      simp [book_car, hfind, hcar]
    · intro c hc hid
      have hcar : (db.cars.find? fun cc => cc.id == carId) = some c :=
        find?_key_eq_some Car.id carId db.cars hnd c hc hid
      constructor
      · intro hav
        simp [book_car, hfind, hcar, hav]
      · intro hav
        simp [book_car, hfind, hcar, hav]

/-- Witness for C1 at db0 (customer 1 books the available car 1): the
hypotheses hold and the success branch produces exactly the inserted row
and the flipped availability flag. -/
theorem c1_book_car_contract_witness :
    (db0.cars.map Car.id).Nodup ∧
    book_car db0 1 1 = (.success 1,
      { db0 with
        bookings := [{ id := 1, customer_id := 1, car_id := 1, start_date := 5,
                       end_date := none, active := true, pending := false }],
        cars := [{ id := 1, dealer_id := 1, make := "T", model := "C", year := 2020,
                   available := false }],
        nextBookingId := 2 }) := by
  refine ⟨by decide, ?_⟩
  have h := ((c1_book_car_contract db0 1 1 (by decide)).2 (by decide)).2
    { id := 1, dealer_id := 1, make := "T", model := "C", year := 2020, available := true }
    (by decide) rfl
  exact (h.2 rfl).trans (by decide)

/-! Preservation of the one-active-booking invariant, operation by
operation. -/

theorem atMostOne_of_bookings_eq {db db2 : DB} (hb : db2.bookings = db.bookings)
    (h : AtMostOneActive db) : AtMostOneActive db2 := by
  intro cust
  unfold activeBookingCount
  rw [hb]
  exact h cust

theorem register_customer_bookings (db : DB) (tid : Nat) (name : String) :
    ((register_customer db tid name).2).bookings = db.bookings := by
  unfold register_customer
  split <;> rfl

theorem add_dealer_bookings (db : DB) (tid : Nat) (name : String) :
    ((add_dealer db tid name).2).bookings = db.bookings := by
  unfold add_dealer
  split <;> rfl

theorem delete_dealer_bookings (db : DB) (did : Nat) :
    ((delete_dealer db did).2).bookings = db.bookings := by
  unfold delete_dealer
  split <;> rfl

theorem add_dealer_car_bookings (db : DB) (did : Nat) (make model : String) (year : Nat)
    (photo : String) : ((add_dealer_car db did make model year photo).2).bookings = db.bookings :=
  rfl

theorem delete_dealer_car_bookings (db : DB) (did carId : Nat) :
    ((delete_dealer_car db did carId).2).bookings = db.bookings := by
  unfold delete_dealer_car
  split
  · split <;> rfl
  · rfl

theorem update_car_image_bookings (db : DB) (carId : Nat) (url : String) (p : Bool) :
    ((update_car_image db carId url p).2).bookings = db.bookings := by
  unfold update_car_image
  split
  · rfl
  · split <;> (dsimp only; split <;> rfl)

theorem refresh_car_image_bookings (db : DB) (carId : Nat) (fid : String) :
    ((refresh_car_image db carId fid).2).bookings = db.bookings := by
  unfold refresh_car_image
  split
  · rfl
  · split <;> rfl

theorem book_car_preserves (db : DB) (cid carId : Nat) (h : AtMostOneActive db) :
    AtMostOneActive (book_car db cid carId).2 := by
  by_cases hfind : (db.bookings.find? fun b => b.customer_id == cid && b.active).isSome
  · simpa [book_car, hfind] using h
  · have hnone : (db.bookings.find? fun b => b.customer_id == cid && b.active) = none :=
      Option.not_isSome_iff_eq_none.mp hfind
    cases hcar : db.cars.find? fun c => c.id == carId with
    | none => simpa [book_car, hnone, hcar] using h
    | some car =>
      by_cases hav : car.available
      · intro cust
        unfold activeBookingCount
        simp only [book_car, hnone, hcar, hav, Option.isSome_none, Bool.false_eq_true,
          if_false, Bool.not_true]
        rw [List.countP_append]
        by_cases hcust : cid = cust
        · subst hcust
          have h0 : db.bookings.countP (fun b => b.customer_id == cid && b.active) = 0 := by
            rw [List.countP_eq_zero]
            exact List.find?_eq_none.mp hnone
          rw [h0]
          simp [List.countP_cons]
        · have h1 : List.countP (fun b => b.customer_id == cust && b.active)
              ([{ id := db.nextBookingId, customer_id := cid, car_id := carId,
                  start_date := db.now, end_date := none, active := true,
                  pending := false }] : List Booking) = 0 := by
            simp [List.countP_cons, hcust]
          rw [h1]
          simpa [activeBookingCount] using h cust
      · simp only [Bool.not_eq_true] at hav
        simpa [book_car, hnone, hcar, hav] using h

theorem return_car_preserves (db : DB) (bid : Nat) (h : AtMostOneActive db) :
    AtMostOneActive (return_car db bid).2 := by
  cases hfind : db.bookings.find? fun b => b.id == bid && b.active with
  | none => simpa [return_car, hfind] using h
  | some b =>
    intro cust
    unfold activeBookingCount
    simp only [return_car, hfind]
    rw [List.countP_map]
    refine le_trans (List.countP_mono_left ?_) (h cust)
    intro x hx hpx
    simp only [Function.comp] at hpx
    by_cases hxid : x.id == bid
    · simp [hxid] at hpx
    · simpa [hxid] using hpx

theorem approve_booking_preserves (db : DB) (bid : Nat) (h : AtMostOneActive db) :
    AtMostOneActive (approve_booking db bid).2 := by
  cases hfind : db.bookings.find? fun b => b.id == bid && b.pending with
  | none => simpa [approve_booking, hfind] using h
  | some b =>
    intro cust
    unfold activeBookingCount
    simp only [approve_booking, hfind]
    rw [List.countP_map]
    refine le_trans (List.countP_mono_left ?_) (h cust)
    intro x hx hpx
    simp only [Function.comp] at hpx
    by_cases hxid : x.id == bid
    · simpa [hxid] using hpx
    · simpa [hxid] using hpx

theorem reject_booking_preserves (db : DB) (bid : Nat) (h : AtMostOneActive db) :
    AtMostOneActive (reject_booking db bid).2 := by
  by_cases hfind : (db.bookings.find? fun b => b.id == bid && b.pending).isSome
  · intro cust
    unfold activeBookingCount
    simp only [reject_booking, hfind, if_true]
    exact le_trans (List.Sublist.countP_le _ (List.filter_sublist _)) (h cust)
  · simpa [reject_booking, hfind] using h

theorem admin_delete_booking_preserves (db : DB) (bid : Nat) (h : AtMostOneActive db) :
    AtMostOneActive (admin_delete_booking db bid).2 := by
  cases hfind : db.bookings.find? fun b => b.id == bid with
  | none => simpa [admin_delete_booking, hfind] using h
  | some b =>
    intro cust
    unfold activeBookingCount
    simp only [admin_delete_booking, hfind]
    exact le_trans (List.Sublist.countP_le _ (List.filter_sublist _)) (h cust)

theorem applyOp_preserves (db : DB) (op : Op) (h : AtMostOneActive db) :
    AtMostOneActive (applyOp db op) := by
  cases op with
  | registerCustomer tid name =>
    exact atMostOne_of_bookings_eq (register_customer_bookings db tid name) h
  | bookCar cid carId => exact book_car_preserves db cid carId h
  | returnCar bid => exact return_car_preserves db bid h
  | approveBooking bid => exact approve_booking_preserves db bid h
  | rejectBooking bid => exact reject_booking_preserves db bid h
  | adminDeleteBooking bid => exact admin_delete_booking_preserves db bid h
  | addDealer tid name => exact atMostOne_of_bookings_eq (add_dealer_bookings db tid name) h
  | deleteDealer did => exact atMostOne_of_bookings_eq (delete_dealer_bookings db did) h
  | addDealerCar did make model year photo =>
    exact atMostOne_of_bookings_eq (add_dealer_car_bookings db did make model year photo) h
  | deleteDealerCar did carId =>
    exact atMostOne_of_bookings_eq (delete_dealer_car_bookings db did carId) h
  | updateCarImage carId url p =>
    exact atMostOne_of_bookings_eq (update_car_image_bookings db carId url p) h
  | refreshCarImage carId fid =>
    exact atMostOne_of_bookings_eq (refresh_car_image_bookings db carId fid) h

/-- Claim C3: from any state satisfying the one-active-booking invariant,
every sequence of engine operations (registerCustomer, bookCar,
returnCar, approveBooking, rejectBooking, adminDeleteBooking, and the
dealer/car CRUD operations), executed sequentially, keeps every
customer's number of active=true bookings at most 1.  Because the result
holds for every sequence, it holds in particular for every prefix of a
sequence, i.e. before and after each operation. -/
theorem c3_one_active_invariant (db : DB) (h : AtMostOneActive db) :
    ∀ ops : List Op, AtMostOneActive (ops.foldl applyOp db) := by
  intro ops
  induction ops generalizing db with
  | nil => simpa using h
  | cons op rest ih =>
    rw [List.foldl_cons]
    exact ih (applyOp db op) (applyOp_preserves db op h)

/-- Witness for C3: db0 satisfies the invariant and a concrete sequence
of operations keeps it. -/
theorem c3_one_active_invariant_witness :
    AtMostOneActive db0 ∧
    AtMostOneActive ([Op.bookCar 1 1, Op.bookCar 1 1, Op.returnCar 1].foldl applyOp db0) := by
  have h : AtMostOneActive db0 := by
    intro cust
    simp [activeBookingCount, db0]
  exact ⟨h, c3_one_active_invariant db0 h _⟩

/-- Claim C4: for every customer and every available, existing car, a
successful book_car followed by return_car on the booking id it returned
restores the car's available flag to true (the cars table returns to its
original value) and marks that booking inactive with end_date set to the
clock; and return_car fails with BookingNotFound when no booking with
that id is active.  Car ids are a primary key (Nodup) and the SERIAL
booking counter is fresh (every stored booking id is below it). -/
theorem c4_round_trip (db : DB) (cid carId : Nat) (c : Car)
    (hfresh : ∀ b ∈ db.bookings, b.id < db.nextBookingId)
    (hnd : (db.cars.map Car.id).Nodup)
    (hc : c ∈ db.cars) (hid : c.id = carId) (hav : c.available = true)
    (hnoact : ∀ b ∈ db.bookings, ¬(b.customer_id = cid ∧ b.active = true)) :
    (∃ db1 db2,
      book_car db cid carId = (.success db.nextBookingId, db1) ∧
      return_car db1 db.nextBookingId = (.success, db2) ∧
      db2.cars = db.cars ∧
      db2.bookings = db.bookings ++
        [{ id := db.nextBookingId, customer_id := cid, car_id := carId,
           start_date := db.now, end_date := some db.now, active := false,
           pending := false }]) ∧
    (∀ (dbx : DB) (bid : Nat), (∀ b ∈ dbx.bookings, ¬(b.id = bid ∧ b.active = true)) →
      return_car dbx bid = (.bookingNotFound, dbx)) := by
  constructor
  · have hfind : (db.bookings.find? fun b => b.customer_id == cid && b.active) = none := by
      rw [List.find?_eq_none]
      intro b hb
      simp only [Bool.and_eq_true, beq_iff_eq]
      rintro ⟨h1, h2⟩
      exact hnoact b hb ⟨h1, h2⟩
    have hcar : (db.cars.find? fun cc => cc.id == carId) = some c :=
      find?_key_eq_some Car.id carId db.cars hnd c hc hid
    have hbook : book_car db cid carId = (.success db.nextBookingId,
        { db with
          bookings := db.bookings ++
            [{ id := db.nextBookingId, customer_id := cid, car_id := carId,
               start_date := db.now, end_date := none, active := true, pending := false }],
          cars := db.cars.map fun cc =>
            if cc.id == carId then { cc with available := false } else cc,
          nextBookingId := db.nextBookingId + 1 }) := by
      simp [book_car, hfind, hcar, hav]
    have hfind2 : (db.bookings ++
        ([{ id := db.nextBookingId, customer_id := cid, car_id := carId,
            start_date := db.now, end_date := none, active := true,
            pending := false }] : List Booking)).find?
          (fun b => b.id == db.nextBookingId && b.active) = some
        { id := db.nextBookingId, customer_id := cid, car_id := carId,
          start_date := db.now, end_date := none, active := true, pending := false } := by
      rw [List.find?_append]
      have hl : db.bookings.find? (fun b => b.id == db.nextBookingId && b.active) = none := by
        rw [List.find?_eq_none]
        intro b hb
        have := hfresh b hb
        simp only [Bool.and_eq_true, beq_iff_eq]
        rintro ⟨h1, _⟩
        omega
      rw [hl, Option.none_or]
      exact List.find?_cons_of_pos _ (by simp)
    have hret : return_car
        ({ db with
           bookings := db.bookings ++
             [{ id := db.nextBookingId, customer_id := cid, car_id := carId,
                start_date := db.now, end_date := none, active := true, pending := false }],
           cars := db.cars.map fun cc =>
             if cc.id == carId then { cc with available := false } else cc,
           nextBookingId := db.nextBookingId + 1 }) db.nextBookingId = (.success,
        { db with
          bookings := (db.bookings ++
            ([{ id := db.nextBookingId, customer_id := cid, car_id := carId,
                start_date := db.now, end_date := none, active := true,
                pending := false }] : List Booking)).map fun bb =>
              if bb.id == db.nextBookingId then
                { bb with active := false, end_date := some db.now }
              else bb,
          cars := (db.cars.map fun cc =>
              if cc.id == carId then { cc with available := false } else cc).map fun cc =>
            if cc.id == carId then { cc with available := true } else cc,
          nextBookingId := db.nextBookingId + 1 }) := by
      simp [return_car, hfind2]
    refine ⟨_, _, hbook, hret, ?_, ?_⟩
    · dsimp only
      rw [List.map_map]
      have hpt : ∀ x ∈ db.cars,
          ((fun cc => if cc.id == carId then { cc with available := true } else cc) ∘
            fun cc => if cc.id == carId then { cc with available := false } else cc) x = x := by
        intro x hx
        by_cases hxid : x.id = carId
        · have hxav : x.available = true := by
            have hxc : x = c := mem_key_inj Car.id db.cars hnd x hx c hc (by rw [hxid, hid])
            rw [hxc, hav]
          rcases x with ⟨i, d, mk, md, yr, av⟩
          simp only [Car.available] at hxav
          simp only [Car.id] at hxid
          subst hxav
          subst hxid
          simp [Function.comp]
        · simp [Function.comp, hxid]
      exact (List.map_congr_left hpt).trans (List.map_id _)
    · dsimp only
      rw [List.map_append]
      congr 1
      · refine (List.map_congr_left ?_).trans (List.map_id _)
        intro b hb
        have := hfresh b hb
        have hbid : (b.id == db.nextBookingId) = false := by
          simp only [beq_eq_false_iff_ne, ne_eq]
          omega
        simp [hbid]
      · simp
  · intro dbx bid hno
    have hfind : (dbx.bookings.find? fun b => b.id == bid && b.active) = none := by
      rw [List.find?_eq_none]
      intro b hb
      simp only [Bool.and_eq_true, beq_iff_eq]
      rintro ⟨h1, h2⟩
      exact hno b hb ⟨h1, h2⟩
    simp [return_car, hfind]

/-- Witness for C4: on db0 the round trip book then return restores the
cars table and leaves one completed booking. -/
theorem c4_round_trip_witness :
    (∀ b ∈ db0.bookings, b.id < db0.nextBookingId) ∧
    (∃ db1 db2,
      book_car db0 1 1 = (.success db0.nextBookingId, db1) ∧
      return_car db1 db0.nextBookingId = (.success, db2) ∧
      db2.cars = db0.cars ∧
      db2.bookings = db0.bookings ++
        [{ id := db0.nextBookingId, customer_id := 1, car_id := 1,
           start_date := db0.now, end_date := some db0.now, active := false,
           pending := false }]) := by
  refine ⟨by decide, ?_⟩
  exact (c4_round_trip db0 1 1
    { id := 1, dealer_id := 1, make := "T", model := "C", year := 2020, available := true }
    (by decide) (by decide) (by decide) rfl rfl (by decide)).1

/-- Claim C5: approve_booking and reject_booking succeed only when the
booking exists with pending=true and otherwise fail with
NotFoundOrProcessed; on success approve_booking clears the pending flag
and sets the booked car's available flag to false, while reject_booking
deletes the booking row and leaves the cars table (in particular every
available flag) unchanged.  Booking ids are a primary key (Nodup). -/
theorem c5_approve_reject_contract (db : DB) (bid : Nat)
    (hnd : (db.bookings.map Booking.id).Nodup) :
    ((∀ b ∈ db.bookings, ¬(b.id = bid ∧ b.pending = true)) →
      approve_booking db bid = (.notFoundOrProcessed, db) ∧
      reject_booking db bid = (.notFoundOrProcessed, db)) ∧
    (∀ b ∈ db.bookings, b.id = bid → b.pending = true →
      approve_booking db bid = (.success,
        { db with
          bookings := db.bookings.map fun bb =>
            if bb.id == bid then { bb with pending := false } else bb,
          cars := db.cars.map fun c =>
            if c.id == b.car_id then { c with available := false } else c }) ∧
      reject_booking db bid = (.success,
        { db with bookings := db.bookings.filter fun bb => !(bb.id == bid) }) ∧
      (reject_booking db bid).2.cars = db.cars) := by
  constructor
  · intro hno
    have hfind : (db.bookings.find? fun b => b.id == bid && b.pending) = none := by
      rw [List.find?_eq_none]
      intro b hb
      simp only [Bool.and_eq_true, beq_iff_eq]
      rintro ⟨h1, h2⟩
      exact hno b hb ⟨h1, h2⟩
    constructor
    · simp [approve_booking, hfind]
    · simp [reject_booking, hfind]
  · intro b hb hbid hp
    have hfind : (db.bookings.find? fun bb => bb.id == bid && bb.pending) = some b :=
      find?_key_and_eq_some Booking.id Booking.pending bid db.bookings hnd b hb hbid hp
    refine ⟨?_, ?_, ?_⟩
    · simp [approve_booking, hfind]
    · simp [reject_booking, hfind]
    · simp [reject_booking, hfind]

/-- Witness for C5 on a database holding one pending booking of car 1:
approve flips the car to unavailable and clears pending; reject deletes
the row and leaves the cars table untouched. -/
theorem c5_approve_reject_contract_witness :
    ((db0pending.bookings.map Booking.id).Nodup ∧
      ({ id := 1, customer_id := 1, car_id := 1, start_date := 0, end_date := none,
         active := true, pending := true } : Booking) ∈ db0pending.bookings) ∧
    approve_booking db0pending 1 = (.success,
      { db0pending with
        bookings := db0pending.bookings.map fun bb =>
          if bb.id == 1 then { bb with pending := false } else bb,
        cars := db0pending.cars.map fun c =>
          if c.id == 1 then { c with available := false } else c }) ∧
    reject_booking db0pending 1 = (.success,
      { db0pending with bookings := db0pending.bookings.filter fun bb => !(bb.id == 1) }) ∧
    (reject_booking db0pending 1).2.cars = db0pending.cars := by
  refine ⟨⟨by decide, by decide⟩, ?_⟩
  exact (c5_approve_reject_contract db0pending 1 (by decide)).2
    { id := 1, customer_id := 1, car_id := 1, start_date := 0, end_date := none,
      active := true, pending := true } (by decide) rfl rfl

/-- Sanity check of the interleaving model: a book_car transaction run
alone to completion (5 steps) leaves exactly the state and result of the
sequential book_car function. -/
theorem runThread_eq_book_car (db : DB) (cid carId : Nat) :
    (runThread db (mkThread cid carId) 5).1 = (book_car db cid carId).2 ∧
    (runThread db (mkThread cid carId) 5).2.result = some (book_car db cid carId).1 := by
  by_cases h1 : (db.bookings.find? fun b => b.customer_id == cid && b.active).isSome
  · constructor <;> simp [runThread, stepThread, mkThread, book_car, h1]
  · cases h2 : db.cars.find? fun c => c.id == carId with
    | none => constructor <;> simp [runThread, stepThread, mkThread, book_car, h1, h2]
    | some car =>
      by_cases h3 : car.available
      · constructor <;> simp [runThread, stepThread, mkThread, book_car, h1, h2, h3]
      · simp only [Bool.not_eq_true] at h3
        constructor <;> simp [runThread, stepThread, mkThread, book_car, h1, h2, h3]

/-- Claim C2 (code bug exhibit): with car 1 available and no bookings,
interleaving two book_car transactions for customers 1 and 2 at the
suspension points between the availability SELECT and the COMMIT lets
BOTH calls return success, leaving two active bookings of car 1.  The
schedule: both threads pass the active-booking check and the
availability check (both SELECTs read the committed state, where car 1
is still available), then thread 1 inserts, updates and commits, then
thread 2 does the same.  The code has no row lock and no conditional
update, so nothing invalidates thread 2's stale availability check. -/
theorem c2_race_both_succeed :
    ((runSched dbRace (mkThread 1 1) (mkThread 2 1)
        [true, false, true, false, true, true, true, false, false, false]).2.1.result =
      some (.success 1)) ∧
    ((runSched dbRace (mkThread 1 1) (mkThread 2 1)
        [true, false, true, false, true, true, true, false, false, false]).2.2.result =
      some (.success 2)) ∧
    ((runSched dbRace (mkThread 1 1) (mkThread 2 1)
        [true, false, true, false, true, true, true, false, false, false]).1.bookings.countP
      fun b => b.car_id == 1 && b.active) = 2 := by
  decide

/-- Counterexample to claim C6 as stated: deleting dealer 1 succeeds and
removes its car 1, yet a booking row referencing the deleted car 1
survives, so the delete does NOT leave the store without rows referencing
a deleted car. -/
theorem c6_counterexample :
    (delete_dealer dbC6 1).1 = true ∧
    (∀ c ∈ (delete_dealer dbC6 1).2.cars, c.id ≠ 1) ∧
    ∃ b ∈ (delete_dealer dbC6 1).2.bookings, b.car_id = 1 := by
  decide

/-- Claim C6 as amended: deleting a dealer removes all of that dealer's
cars and all car-image rows referencing those cars (no car, dealer or
car-image row referencing the deleted dealer or its cars remains), but
booking rows are left untouched, including rows referencing the deleted
cars; and adminDeleteBooking on an active booking restores the booked
car's available flag to true while removing the booking row. -/
theorem c6_cascade_amended (db : DB) (dealer_id bid : Nat)
    (hdealer : ∃ d ∈ db.dealers, d.id = dealer_id)
    (hndb : (db.bookings.map Booking.id).Nodup) :
    ((delete_dealer db dealer_id).1 = true ∧
     (∀ c ∈ (delete_dealer db dealer_id).2.cars, c.dealer_id ≠ dealer_id) ∧
     (∀ d ∈ (delete_dealer db dealer_id).2.dealers, d.id ≠ dealer_id) ∧
     (∀ img ∈ (delete_dealer db dealer_id).2.car_images,
       ∀ c ∈ db.cars, c.dealer_id = dealer_id → img.car_id ≠ c.id) ∧
     (delete_dealer db dealer_id).2.bookings = db.bookings) ∧
    (∀ b ∈ db.bookings, b.id = bid → b.active = true →
      admin_delete_booking db bid = (.success,
        { db with
          cars := db.cars.map fun c =>
            if c.id == b.car_id then { c with available := true } else c,
          bookings := db.bookings.filter fun bb => !(bb.id == bid) })) := by
  constructor
  · obtain ⟨d, hd, hdid⟩ := hdealer
    have hfind : (db.dealers.find? fun dd => dd.id == dealer_id).isSome := by
      rw [List.find?_isSome]
      exact ⟨d, hd, by simp [hdid]⟩
    refine ⟨?_, ?_, ?_, ?_, ?_⟩
    · simp [delete_dealer, hfind]
    · intro c hc
      simp only [delete_dealer, hfind, if_true] at hc
      have := (List.mem_filter.mp hc).2
      simpa using this
    · intro dd hdd
      simp only [delete_dealer, hfind, if_true] at hdd
      have := (List.mem_filter.mp hdd).2
      simpa using this
    · intro img hi c hc hcd
      simp only [delete_dealer, hfind, if_true] at hi
      have h2 := (List.mem_filter.mp hi).2
      simp at h2
      intro heq
      exact h2 c hc hcd heq.symm
    · simp [delete_dealer, hfind]
  · intro b hb hbid hact
    have hfindb : (db.bookings.find? fun bb => bb.id == bid) = some b :=
      find?_key_eq_some Booking.id bid db.bookings hndb b hb hbid
    simp [admin_delete_booking, hfindb, hact]

/-- Witness for C6 (amended) on dbC6a: dealer 1 exists, its deletion
keeps the bookings table, and deleting the active booking 1 restores car
1's availability while removing the row. -/
theorem c6_cascade_amended_witness :
    (∃ d ∈ dbC6a.dealers, d.id = 1) ∧
    (delete_dealer dbC6a 1).2.bookings = dbC6a.bookings ∧
    admin_delete_booking dbC6a 1 = (.success,
      { dbC6a with
        cars := dbC6a.cars.map fun c =>
          if c.id == 1 then { c with available := true } else c,
        bookings := dbC6a.bookings.filter fun bb => !(bb.id == 1) }) := by
  have h := c6_cascade_amended dbC6a 1 1
    ⟨{ id := 1, telegram_id := 99, name := "D" }, by decide, rfl⟩ (by decide)
  exact ⟨⟨{ id := 1, telegram_id := 99, name := "D" }, by decide, rfl⟩,
    h.1.2.2.2.2,
    h.2 { id := 1, customer_id := 1, car_id := 1, start_date := 0, end_date := none,
          active := true, pending := false } (by decide) rfl rfl⟩

/-- Claim C7 (code bug exhibit): the retry_on_db_error decorator alone
does retry a body that raises connection errors, making MAX_RETRIES = 3
attempts with a sleep between consecutive attempts before re-raising
(second conjunct); but register_customer's body swallows every exception
internally and returns None, so the decorated register_customer under a
transient connectivity failure on every attempt makes exactly ONE
attempt, performs NO sleeps, and returns None (first conjunct) -- the
bounded retries never happen. -/
theorem c7_register_retry_defeated :
    retry_on_db_error (register_customer_body fun _ => (.raiseConn : BodyOutcome Bool)) =
      (1, 0, .returned none) ∧
    retry_on_db_error (fun _ => (.raiseConn : BodyOutcome (Option Bool))) =
      (3, 2, .raisedConn) := by
  decide

/-- Counterexample to claim C8: an unrecoverable error during the
booking-confirmation transition is a terminal transition (the handler
shows the main menu), yet it leaves every wizard field in the session
instead of clearing it. -/
theorem c8_counterexample :
    (confirm_booking_handler db0 sessC8 10 1 true).2 = sessC8 ∧
    sessC8 ≠ Session.empty := by
  decide

/-- Claim C8 as amended: the confirm-booking handler clears all transient
session data when its try block completes (both on booking success and
booking failure), and the dealer add-car photo handler clears it on
success and on the missing-dealer early return; but an unrecoverable
error during either transition, and the failure branch of the dealer
car insert, leave the session data unchanged, so wizard fields survive
those terminal transitions. -/
theorem c8_clear_amended (db : DB) (sess : Session) (dsess : DealerSession)
    (tid cbid uid : Nat) (pid : String) (dbf : Bool) :
    ((get_customer_id db tid).isSome →
      (confirm_booking_handler db sess tid cbid false).2 = Session.empty) ∧
    (confirm_booking_handler db sess tid cbid true).2 = sess ∧
    ((get_dealer_id db uid).isSome →
      (dealer_add_car_photo_handler db dsess uid pid false false).2 = DealerSession.empty) ∧
    ((get_dealer_id db uid).isSome →
      (dealer_add_car_photo_handler db dsess uid pid false true).2 = dsess) ∧
    (dealer_add_car_photo_handler db dsess uid pid true dbf).2 = dsess := by
  refine ⟨?_, rfl, ?_, ?_, rfl⟩
  · intro h
    obtain ⟨cidv, hcid⟩ := Option.isSome_iff_exists.mp h
    simp [confirm_booking_handler, hcid]
  · intro h
    obtain ⟨didv, hdid⟩ := Option.isSome_iff_exists.mp h
    simp [dealer_add_car_photo_handler, hdid]
  · intro h
    obtain ⟨didv, hdid⟩ := Option.isSome_iff_exists.mp h
    simp [dealer_add_car_photo_handler, hdid]

/-- Witness for C8 (amended) on db0: the customer and dealer exist; the
non-crashing confirm transition clears the session, and the dealer
photo step with a failing insert keeps it. -/
theorem c8_clear_amended_witness :
    ((get_customer_id db0 10).isSome ∧ (get_dealer_id db0 99).isSome) ∧
    (confirm_booking_handler db0 sessC8 10 1 false).2 = Session.empty ∧
    (dealer_add_car_photo_handler db0 dsessC8 99 "p" false true).2 = dsessC8 := by
  have h := c8_clear_amended db0 sessC8 dsessC8 10 1 99 "p" false
  exact ⟨⟨by decide, by decide⟩, h.1 (by decide), h.2.2.2.1 (by decide)⟩

/-- Counterexample to claim C9: at 06:00 the start-time menu offers a
slot strictly after 20:00 (namely 20:30), so the menu is not limited to
the 08:00 to 20:00 range. -/
theorem c9_counterexample :
    ∃ s ∈ generate_time_slots true 6 0, 20 * 60 < s.1 * 60 + s.2 := by
  decide

theorem mem_time_slots_flat (s nowH nowM h m : Nat) :
    ((h, m) ∈ (List.range' s (21 - s)).flatMap fun hour =>
      [0, 30].filterMap fun minute =>
        if hour == nowH && decide (minute ≤ nowM) then none
        else some (hour, minute)) ↔
    ((m = 0 ∨ m = 30) ∧ s ≤ h ∧ h ≤ 20 ∧ ¬(h = nowH ∧ m ≤ nowM)) := by
  rw [List.mem_flatMap]
  constructor
  · rintro ⟨hour, hhr, hmem⟩
    rw [List.mem_range'_1] at hhr
    rw [List.mem_filterMap] at hmem
    obtain ⟨minute, hmin, hg⟩ := hmem
    simp only [List.mem_cons, List.not_mem_nil, or_false] at hmin
    split at hg
    · exact absurd hg (by simp)
    · rename_i hcond
      rw [Option.some_inj, Prod.mk.injEq] at hg
      obtain ⟨rfl, rfl⟩ := hg
      simp only [Bool.and_eq_true, beq_iff_eq, decide_eq_true_eq, not_and] at hcond
      refine ⟨hmin, hhr.1, by omega, ?_⟩
      rintro ⟨h1, h2⟩
      exact hcond h1 h2
  · rintro ⟨hm, hs, h20, hnot⟩
    refine ⟨h, ?_, ?_⟩
    · rw [List.mem_range'_1]
      omega
    · rw [List.mem_filterMap]
      refine ⟨m, ?_, ?_⟩
      · rcases hm with rfl | rfl <;> simp
      · rw [if_neg (by simp only [Bool.and_eq_true, beq_iff_eq, decide_eq_true_eq]; exact hnot)]

/-- Claim C9 as amended: for every current clock time (with a valid
minute), the start-time menu offers exactly the half-hour slots from
08:00 to 20:30 inclusive that are strictly later than the current time;
in particular 20:30 is offered, beyond the claimed 20:00 bound, and the
now-filter applies whenever the start-time keyboard is generated. -/
theorem c9_time_slots_amended (nowH nowM h m : Nat) (hM : nowM ≤ 59) :
    ((h, m) ∈ generate_time_slots true nowH nowM) ↔
      ((m = 0 ∨ m = 30) ∧ 8 ≤ h ∧ h ≤ 20 ∧ 60 * nowH + nowM < 60 * h + m) := by
  unfold generate_time_slots
  dsimp only
  by_cases h8 : 8 ≤ nowH
  · rw [if_pos (by simp [h8])]
    simp only [Bool.true_and]
    rw [mem_time_slots_flat]
    constructor
    · rintro ⟨hm, hs, h20, hnot⟩
      exact ⟨hm, by omega, h20, by omega⟩
    · rintro ⟨hm, h8h, h20, hlt⟩
      exact ⟨hm, by omega, h20, by omega⟩
  · rw [if_neg (by simp [h8])]
    simp only [Bool.true_and]
    rw [mem_time_slots_flat]
    constructor
    · rintro ⟨hm, hs, h20, hnot⟩
      exact ⟨hm, hs, h20, by omega⟩
    · rintro ⟨hm, h8h, h20, hlt⟩
      exact ⟨hm, h8h, h20, by omega⟩

/-- Witness for C9 (amended) at 09:10: the slot 09:30 is offered and the
characterization agrees. -/
theorem c9_time_slots_amended_witness :
    10 ≤ 59 ∧
    (((9, 30) ∈ generate_time_slots true 9 10) ↔
      ((30 = 0 ∨ 30 = 30) ∧ 8 ≤ 9 ∧ 9 ≤ 20 ∧ 60 * 9 + 10 < 60 * 9 + 30)) :=
  ⟨by decide, c9_time_slots_amended 9 10 9 30 (by decide)⟩

/-- Claim C10: the wizard's selected dates and times are never persisted.
The database outcome of the confirm transition is the same for any two
session contents, and every booking row the transition creates has
start_date equal to the database clock and a NULL end_date. -/
theorem c10_wizard_dates_not_persisted (db : DB) (sess sess2 : Session) (tid cbid : Nat) :
    (confirm_booking_handler db sess tid cbid false).1 =
      (confirm_booking_handler db sess2 tid cbid false).1 ∧
    ∀ b ∈ (confirm_booking_handler db sess tid cbid false).1.bookings,
      b ∉ db.bookings → b.start_date = db.now ∧ b.end_date = none := by
  constructor
  · cases hc : get_customer_id db tid <;> simp [confirm_booking_handler, hc]
  · intro b hb hbnot
    cases hc : get_customer_id db tid with
    | none =>
      simp only [confirm_booking_handler, hc] at hb
      exact absurd hb hbnot
    | some cid =>
      simp only [confirm_booking_handler, hc] at hb
      by_cases h1 : (db.bookings.find? fun bb => bb.customer_id == cid && bb.active).isSome
      · simp only [book_car, h1, if_true] at hb
        exact absurd hb hbnot
      · cases h2 : db.cars.find? fun c => c.id == cbid with
        | none =>
          simp only [book_car, h1, Bool.false_eq_true, if_false, h2] at hb
          exact absurd hb hbnot
        | some car =>
          by_cases h3 : car.available
          · simp only [book_car, h1, Bool.false_eq_true, if_false, h2, h3, Bool.not_true] at hb
            rcases List.mem_append.mp hb with h | h
            · exact absurd h hbnot
            · simp only [List.mem_cons, List.not_mem_nil, or_false] at h
              rw [h]
              exact ⟨rfl, rfl⟩
          · simp only [Bool.not_eq_true] at h3
            simp only [book_car, h1, Bool.false_eq_true, if_false, h2, h3, Bool.not_false,
              if_true] at hb
            exact absurd hb hbnot

/-- Witness for C10 on db0: the confirm transition on a fully populated
session and on the empty session produce the same database, and the
created row has start_date = clock, end_date = NULL. -/
theorem c10_wizard_dates_not_persisted_witness :
    ((confirm_booking_handler db0 sessC8 10 1 false).1 =
      (confirm_booking_handler db0 Session.empty 10 1 false).1) ∧
    ∀ b ∈ (confirm_booking_handler db0 sessC8 10 1 false).1.bookings,
      b ∉ db0.bookings → b.start_date = db0.now ∧ b.end_date = none :=
  c10_wizard_dates_not_persisted db0 sessC8 Session.empty 10 1

end CarRental
